import Mathlib

/-
Verification of the R2R ladder DAC calculator (src/Theory/R2R/try2.py).

The program is a pure arithmetic model: a 3-bit R2R ladder network with a
fixed 16 ohm speaker load.  Python float arithmetic is embedded as exact
rational arithmetic over ℚ; every operation of the source is a closed-form
rational expression, so this embedding is faithful up to floating-point
rounding (which the spec treats via tolerances).
-/

namespace R2R

/-- State of a Python R2RNetwork instance: the three attributes set by
the constructor (self.R, self.num_bits, self.speaker_load). -/
structure R2RNetwork where
  R : ℚ
  num_bits : ℕ
  speaker_load : ℚ
  deriving DecidableEq, Repr

/-- R2RNetwork.__init__(self, r_value): stores r_value as self.R,
sets num_bits to 3 and speaker_load to 16.  No validation occurs. -/
def R2RNetwork.init (r_value : ℚ) : R2RNetwork :=
  ⟨r_value, 3, 16⟩

/-- calculate_thevenin_equivalent: returns (v_th, r_th) with
v_th = v1/2 + v2/4 + v3/8 and r_th = self.R. -/
def R2RNetwork.calculate_thevenin_equivalent
    (self : R2RNetwork) (v1 v2 v3 : ℚ) : ℚ × ℚ :=
  (v1 / 2 + v2 / 4 + v3 / 8, self.R)

/-- calculate_output_voltage: voltage divider with the speaker load,
returns (v_out, current, power). -/
def R2RNetwork.calculate_output_voltage
    (self : R2RNetwork) (v1 v2 v3 : ℚ) : ℚ × ℚ × ℚ :=
  let vr := self.calculate_thevenin_equivalent v1 v2 v3
  let v_out := vr.1 * (self.speaker_load / (vr.2 + self.speaker_load))
  let current := v_out / self.speaker_load
  let power := v_out * current
  (v_out, current, power)

/-- display_results: prints a report (side effect dropped in the embedding)
and returns v_out from calculate_output_voltage on the same inputs. -/
def R2RNetwork.display_results (self : R2RNetwork) (v1 v2 v3 : ℚ) : ℚ :=
  (self.calculate_output_voltage v1 v2 v3).1

/-- One character of the Python format f-string f"{i:03b}": the bit of i
selected by the given power-of-two mask, as the character 0 or 1. -/
def bitChar (i mask : ℕ) : Char :=
  if i &&& mask ≠ 0 then '1' else '0'

/-- f"{i:03b}" for i < 8: three-character zero-padded binary string. -/
def natToBin3 (i : ℕ) : String :=
  String.mk [bitChar i 4, bitChar i 2, bitChar i 1]

/-- One row of the truth table printed by the __main__ loop. -/
structure TruthRow where
  v1 : ℚ
  v2 : ℚ
  v3 : ℚ
  v_out : ℚ
  binary : String
  deriving DecidableEq, Repr

/-- Body of the __main__ truth-table loop at index i: bit 2 selects v1,
bit 1 selects v2, bit 0 selects v3; high level 5.0, low level 0.0. -/
def truthTableRow (net : R2RNetwork) (i : ℕ) : TruthRow :=
  let v1 : ℚ := if i &&& 4 ≠ 0 then 5 else 0
  let v2 : ℚ := if i &&& 2 ≠ 0 then 5 else 0
  let v3 : ℚ := if i &&& 1 ≠ 0 then 5 else 0
  let out := net.calculate_output_voltage v1 v2 v3
  ⟨v1, v2, v3, out.1, natToBin3 i⟩

/-- The full truth table: for i in range(8). -/
def truthTable (net : R2RNetwork) : List TruthRow :=
  (List.range 8).map (truthTableRow net)

/-- C1: for all inputs v1, v2, v3 and any base resistance, the Thevenin
voltage returned by calculate_thevenin_equivalent is v1/2 + v2/4 + v3/8. -/
theorem thevenin_voltage_superposition (net : R2RNetwork) (v1 v2 v3 : ℚ) :
    (net.calculate_thevenin_equivalent v1 v2 v3).1 = v1 / 2 + v2 / 4 + v3 / 8 :=
  rfl

/-- C2: the Thevenin resistance returned by calculate_thevenin_equivalent
equals the configured base resistance, independent of the voltages. -/
theorem thevenin_resistance_eq_base (net : R2RNetwork) (v1 v2 v3 : ℚ) :
    (net.calculate_thevenin_equivalent v1 v2 v3).2 = net.R :=
  rfl

/-- C9: display_results returns exactly the output voltage that
calculate_output_voltage computes for the same inputs and configuration. -/
theorem display_results_returns_vout (net : R2RNetwork) (v1 v2 v3 : ℚ) :
    net.display_results v1 v2 v3 = (net.calculate_output_voltage v1 v2 v3).1 :=
  rfl

/-- C4: the truth-table enumeration produces exactly 8 rows, in strictly
ascending order of i, with zero-padded binary patterns 000 through 111, and
row i takes v1 from bit 2 of i, v2 from bit 1 and v3 from bit 0, mapping a
set bit to 5.0 and a clear bit to 0.0. -/
theorem truthTable_enumeration (net : R2RNetwork) :
    (truthTable net).map (fun r => (r.binary, r.v1, r.v2, r.v3)) =
      [("000", 0, 0, 0), ("001", 0, 0, 5), ("010", 0, 5, 0), ("011", 0, 5, 5),
       ("100", 5, 0, 0), ("101", 5, 0, 5), ("110", 5, 5, 0), ("111", 5, 5, 5)] := by
  rfl

/-- Unfolding lemma: the output voltage as computed by the source. -/
theorem vout_unfold (net : R2RNetwork) (v1 v2 v3 : ℚ) :
    (net.calculate_output_voltage v1 v2 v3).1 =
      (v1 / 2 + v2 / 4 + v3 / 8) * (net.speaker_load / (net.R + net.speaker_load)) :=
  rfl

/-- Unfolding lemma: the current as computed by the source. -/
theorem current_unfold (net : R2RNetwork) (v1 v2 v3 : ℚ) :
    (net.calculate_output_voltage v1 v2 v3).2.1 =
      (net.calculate_output_voltage v1 v2 v3).1 / net.speaker_load :=
  rfl

/-- Unfolding lemma: the power as computed by the source. -/
theorem power_unfold (net : R2RNetwork) (v1 v2 v3 : ℚ) :
    (net.calculate_output_voltage v1 v2 v3).2.2 =
      (net.calculate_output_voltage v1 v2 v3).1 *
        (net.calculate_output_voltage v1 v2 v3).2.1 :=
  rfl

/-- C3: with load resistance L nonzero and R + L nonzero,
calculate_output_voltage returns vOut = vTh * L / (R + L) where (vTh, R)
comes from calculate_thevenin_equivalent, current = vOut / L and
power = vOut * current. -/
theorem output_voltage_contract (net : R2RNetwork) (v1 v2 v3 : ℚ)
    (hL : net.speaker_load ≠ 0)
    (hRL : (net.calculate_thevenin_equivalent v1 v2 v3).2 + net.speaker_load ≠ 0) :
    (net.calculate_output_voltage v1 v2 v3).1 =
      (net.calculate_thevenin_equivalent v1 v2 v3).1 * net.speaker_load /
        ((net.calculate_thevenin_equivalent v1 v2 v3).2 + net.speaker_load) ∧
    (net.calculate_output_voltage v1 v2 v3).2.1 =
      (net.calculate_output_voltage v1 v2 v3).1 / net.speaker_load ∧
    (net.calculate_output_voltage v1 v2 v3).2.2 =
      (net.calculate_output_voltage v1 v2 v3).1 *
        (net.calculate_output_voltage v1 v2 v3).2.1 := by
  refine ⟨?_, rfl, rfl⟩
  rw [vout_unfold, thevenin_voltage_superposition, thevenin_resistance_eq_base]
  rw [mul_div_assoc]

/-- Witness for C3 at net = init 2000 and inputs (5, 5, 5). -/
theorem output_voltage_contract_witness :
    (R2RNetwork.init 2000).speaker_load ≠ 0 ∧
    ((R2RNetwork.init 2000).calculate_thevenin_equivalent 5 5 5).2 +
      (R2RNetwork.init 2000).speaker_load ≠ 0 ∧
    (((R2RNetwork.init 2000).calculate_output_voltage 5 5 5).1 =
      ((R2RNetwork.init 2000).calculate_thevenin_equivalent 5 5 5).1 *
        (R2RNetwork.init 2000).speaker_load /
        (((R2RNetwork.init 2000).calculate_thevenin_equivalent 5 5 5).2 +
          (R2RNetwork.init 2000).speaker_load) ∧
    ((R2RNetwork.init 2000).calculate_output_voltage 5 5 5).2.1 =
      ((R2RNetwork.init 2000).calculate_output_voltage 5 5 5).1 /
        (R2RNetwork.init 2000).speaker_load ∧
    ((R2RNetwork.init 2000).calculate_output_voltage 5 5 5).2.2 =
      ((R2RNetwork.init 2000).calculate_output_voltage 5 5 5).1 *
        ((R2RNetwork.init 2000).calculate_output_voltage 5 5 5).2.1) :=
  ⟨by norm_num [R2RNetwork.init],
   by norm_num [R2RNetwork.init, R2RNetwork.calculate_thevenin_equivalent],
   output_voltage_contract (R2RNetwork.init 2000) 5 5 5
     (by norm_num [R2RNetwork.init])
     (by norm_num [R2RNetwork.init, R2RNetwork.calculate_thevenin_equivalent])⟩

/-- C6: with positive load resistance and positive base (Thevenin)
resistance, the output voltage magnitude is between 0 and the Thevenin
voltage magnitude. -/
theorem output_le_thevenin (net : R2RNetwork) (v1 v2 v3 : ℚ)
    (hL : 0 < net.speaker_load) (hR : 0 < net.R) :
    0 ≤ |(net.calculate_output_voltage v1 v2 v3).1| ∧
    |(net.calculate_output_voltage v1 v2 v3).1| ≤
      |(net.calculate_thevenin_equivalent v1 v2 v3).1| := by
  refine ⟨abs_nonneg _, ?_⟩
  rw [vout_unfold, thevenin_voltage_superposition, abs_mul]
  have hden : (0:ℚ) < net.R + net.speaker_load := by linarith
  have hfac0 : (0:ℚ) ≤ net.speaker_load / (net.R + net.speaker_load) :=
    div_nonneg hL.le hden.le
  have hfac1 : net.speaker_load / (net.R + net.speaker_load) ≤ 1 := by
    rw [div_le_one hden]; linarith
  calc |v1 / 2 + v2 / 4 + v3 / 8| * |net.speaker_load / (net.R + net.speaker_load)|
      = |v1 / 2 + v2 / 4 + v3 / 8| * (net.speaker_load / (net.R + net.speaker_load)) := by
        rw [abs_of_nonneg hfac0]
    _ ≤ |v1 / 2 + v2 / 4 + v3 / 8| * 1 :=
        mul_le_mul_of_nonneg_left hfac1 (abs_nonneg _)
    _ = |v1 / 2 + v2 / 4 + v3 / 8| := mul_one _

/-- Witness for C6 at net = init 2000 and inputs (5, 0, 5). -/
theorem output_le_thevenin_witness :
    (0:ℚ) < (R2RNetwork.init 2000).speaker_load ∧
    (0:ℚ) < (R2RNetwork.init 2000).R ∧
    (0 ≤ |((R2RNetwork.init 2000).calculate_output_voltage 5 0 5).1| ∧
     |((R2RNetwork.init 2000).calculate_output_voltage 5 0 5).1| ≤
       |((R2RNetwork.init 2000).calculate_thevenin_equivalent 5 0 5).1|) :=
  ⟨by norm_num [R2RNetwork.init], by norm_num [R2RNetwork.init],
   output_le_thevenin (R2RNetwork.init 2000) 5 0 5
     (by norm_num [R2RNetwork.init]) (by norm_num [R2RNetwork.init])⟩

/-- C7: with positive load resistance, the power returned by
calculate_output_voltage equals vOut * current, equals vOut^2 / load, and
is non-negative. -/
theorem power_identity_nonneg (net : R2RNetwork) (v1 v2 v3 : ℚ)
    (hL : 0 < net.speaker_load) :
    (net.calculate_output_voltage v1 v2 v3).2.2 =
      (net.calculate_output_voltage v1 v2 v3).1 *
        (net.calculate_output_voltage v1 v2 v3).2.1 ∧
    (net.calculate_output_voltage v1 v2 v3).2.2 =
      (net.calculate_output_voltage v1 v2 v3).1 ^ 2 / net.speaker_load ∧
    0 ≤ (net.calculate_output_voltage v1 v2 v3).2.2 := by
  have hne : net.speaker_load ≠ 0 := ne_of_gt hL
  have hsq : (net.calculate_output_voltage v1 v2 v3).2.2 =
      (net.calculate_output_voltage v1 v2 v3).1 ^ 2 / net.speaker_load := by
    rw [power_unfold, current_unfold]
    field_simp
    ring
  exact ⟨rfl, hsq, hsq ▸ div_nonneg (sq_nonneg _) hL.le⟩

/-- Witness for C7 at net = init 2000 and inputs (3.3, 1.5, 2). -/
theorem power_identity_nonneg_witness :
    (0:ℚ) < (R2RNetwork.init 2000).speaker_load ∧
    (((R2RNetwork.init 2000).calculate_output_voltage (33/10) (3/2) 2).2.2 =
      ((R2RNetwork.init 2000).calculate_output_voltage (33/10) (3/2) 2).1 *
        ((R2RNetwork.init 2000).calculate_output_voltage (33/10) (3/2) 2).2.1 ∧
    ((R2RNetwork.init 2000).calculate_output_voltage (33/10) (3/2) 2).2.2 =
      ((R2RNetwork.init 2000).calculate_output_voltage (33/10) (3/2) 2).1 ^ 2 /
        (R2RNetwork.init 2000).speaker_load ∧
    0 ≤ ((R2RNetwork.init 2000).calculate_output_voltage (33/10) (3/2) 2).2.2) :=
  ⟨by norm_num [R2RNetwork.init],
   power_identity_nonneg (R2RNetwork.init 2000) (33/10) (3/2) 2
     (by norm_num [R2RNetwork.init])⟩

/-- C5 counterexample: with R = 2000, load 16 and inputs (5, 5, 5) the
output voltage is 4.375 * 16 / 2016 = 5/144 = 0.0347222..., which is NOT
within 1e-6 of the value 0.034781 stated by the spec. -/
theorem scenario1_spec_value_false :
    ¬ |((R2RNetwork.init 2000).calculate_output_voltage 5 5 5).1 -
        34781 / 1000000| ≤ 1 / 1000000 := by
  have h : ((R2RNetwork.init 2000).calculate_output_voltage 5 5 5).1 = 5 / 144 := by
    norm_num [R2RNetwork.calculate_output_voltage,
      R2RNetwork.calculate_thevenin_equivalent, R2RNetwork.init]
  rw [h, abs_le]
  norm_num

/-- C5 amended: with R = 2000, load 16 and inputs (5, 5, 5) the Thevenin
voltage is exactly 4.375 and the output voltage is exactly
4.375 * 16 / (2000 + 16), which is approximately 0.034722 V
(within tolerance 1e-6). -/
theorem scenario1_end_to_end :
    ((R2RNetwork.init 2000).calculate_thevenin_equivalent 5 5 5).1 = 35 / 8 ∧
    ((R2RNetwork.init 2000).calculate_output_voltage 5 5 5).1 =
      (35 / 8) * 16 / (2000 + 16) ∧
    |((R2RNetwork.init 2000).calculate_output_voltage 5 5 5).1 -
        34722 / 1000000| ≤ 1 / 1000000 := by
  have h : ((R2RNetwork.init 2000).calculate_output_voltage 5 5 5).1 = 5 / 144 := by
    norm_num [R2RNetwork.calculate_output_voltage,
      R2RNetwork.calculate_thevenin_equivalent, R2RNetwork.init]
  refine ⟨by norm_num [R2RNetwork.calculate_thevenin_equivalent], ?_, ?_⟩
  · rw [h]; norm_num
  · rw [h, abs_le]; norm_num

/-- C8 counterexample: constructing a network with base resistance -1 is
not rejected: the constructor returns a fully formed network whose stored
base resistance is the non-positive value -1 (load fixed at 16). -/
theorem init_negative_succeeds :
    R2RNetwork.init (-1) = ⟨-1, 3, 16⟩ ∧ (R2RNetwork.init (-1)).R ≤ 0 :=
  ⟨rfl, by norm_num [R2RNetwork.init]⟩

/-- C8 amended: the constructor performs no validation: for every base
resistance value, including non-positive ones, it returns a network storing
that value unchanged, with num_bits 3 and the load fixed at 16; any
division-by-zero concern is deferred to later calculations. -/
theorem init_no_validation (r : ℚ) :
    (R2RNetwork.init r).R = r ∧ (R2RNetwork.init r).num_bits = 3 ∧
      (R2RNetwork.init r).speaker_load = 16 :=
  ⟨rfl, rfl, rfl⟩

/-- C10: with base resistance R > 0 (load fixed at 16 by the constructor)
and the truth-table logic levels high = 5.0 and low = 0.0, the output
voltage of row i equals (5 * i / 8) * 16 / (R + 16), so the output voltage
is strictly increasing in the row index. -/
theorem truthTable_vout_monotone (R : ℚ) (i j : ℕ)
    (hR : 0 < R) (hi : i < 8) (hij : i < j) (hj : j < 8) :
    (truthTableRow (R2RNetwork.init R) i).v_out = (5 * i / 8) * 16 / (R + 16) ∧
    (truthTableRow (R2RNetwork.init R) j).v_out = (5 * j / 8) * 16 / (R + 16) ∧
    (truthTableRow (R2RNetwork.init R) i).v_out <
      (truthTableRow (R2RNetwork.init R) j).v_out := by
  have hden : (0:ℚ) < R + 16 := by linarith
  have key : ∀ k, k < 8 →
      (truthTableRow (R2RNetwork.init R) k).v_out = (5 * k / 8) * 16 / (R + 16) := by
    intro k hk
    rw [show (truthTableRow (R2RNetwork.init R) k).v_out =
        ((if k &&& 4 ≠ 0 then (5:ℚ) else 0) / 2 +
          (if k &&& 2 ≠ 0 then (5:ℚ) else 0) / 4 +
          (if k &&& 1 ≠ 0 then (5:ℚ) else 0) / 8) * ((16:ℚ) / (R + 16)) from rfl]
    interval_cases k <;> norm_num +decide <;> ring
  refine ⟨key i hi, key j hj, ?_⟩
  rw [key i hi, key j hj]
  have hcast : (i:ℚ) < (j:ℚ) := by exact_mod_cast hij
  have hnum : 5 * (i:ℚ) / 8 * 16 < 5 * (j:ℚ) / 8 * 16 := by linarith
  exact div_lt_div_of_pos_right hnum hden

/-- Witness for C10 at R = 2000, i = 3, j = 7. -/
theorem truthTable_vout_monotone_witness :
    (0:ℚ) < 2000 ∧ (3:ℕ) < 8 ∧ (3:ℕ) < 7 ∧ (7:ℕ) < 8 ∧
    ((truthTableRow (R2RNetwork.init 2000) 3).v_out =
        (5 * (3:ℕ) / 8) * 16 / (2000 + 16) ∧
     (truthTableRow (R2RNetwork.init 2000) 7).v_out =
        (5 * (7:ℕ) / 8) * 16 / (2000 + 16) ∧
     (truthTableRow (R2RNetwork.init 2000) 3).v_out <
       (truthTableRow (R2RNetwork.init 2000) 7).v_out) :=
  ⟨by norm_num, by norm_num, by norm_num, by norm_num,
   truthTable_vout_monotone 2000 3 7 (by norm_num) (by norm_num)
     (by norm_num) (by norm_num)⟩

end R2R
